/-
Verification development for the dist-keras trainer module
(distkeras/trainers.py).  The Python classes are shallowly embedded as
Lean structures; mutation becomes explicit state passing, exceptions
become `Except`, the parameter-server service thread becomes an explicit
thread registry, and the side effects performed by `train` are recorded
in an event trace.  Python integers are modelled as `Int` (`Nat` where
the source only ever counts), Python floats that merely flow through the
trainers into worker/server constructors are modelled as `Rat`, and
opaque external objects (Keras models, Spark dataframes) are modelled by
tokens carrying exactly the data the trainers inspect.
-/

import Mathlib

namespace DistKeras

/-- Exceptions the trainer code can raise, as observed at the Python level. -/
inductive PyError where
  /-- An attribute access on `None` (Python `AttributeError`). -/
  | attributeErrorNone : PyError
  /-- Calling a `bool` value as a function (Python `TypeError`),
      as happens in `shuffle(dataframe)` when `shuffle` is a boolean. -/
  | typeErrorBoolNotCallable : PyError
  /-- `raise NotImplementedError` in an abstract method. -/
  | notImplementedError : PyError
  /-- An attribute access on an object that never sets that attribute
      (Python `AttributeError`). -/
  | attributeErrorMissing : PyError
  /-- An exception propagating out of a Spark distributed-map job,
      tagged with an abstract payload. -/
  | mapError (payload : Nat) : PyError
deriving DecidableEq, Repr

/-- Observable side effects of a `train` invocation, in program order. -/
inductive Event where
  /-- `start_service()` spawned the parameter-server thread. -/
  | serviceStart : Event
  /-- `stop_service()` stopped the server and joined its thread. -/
  | serviceStop : Event
  /-- `dataframe.coalesce(n)` was invoked. -/
  | coalesce (n : Int) : Event
  /-- `dataframe.repartition(n)` was invoked. -/
  | repartition (n : Int) : Event
  /-- `record_training_start()` ran. -/
  | trainingStartRecorded : Event
  /-- One `dataframe.rdd.mapPartitionsWithIndex(worker.train).collect()`
      call, for the given epoch, over the given number of partitions. -/
  | mapInvoked (epoch : Nat) (partitions : Nat) : Event
  /-- `record_training_end()` ran. -/
  | trainingEndRecorded : Event
deriving DecidableEq, Repr

/-- The worker objects the trainers construct (distkeras.workers).  Only the
constructor arguments the trainers pass are recorded; the workers' own
behaviour is external to the trainer module. -/
inductive Worker where
  | sequential (model : Nat) (features_col label_col : String)
      (batch_size : Int) (optimizer loss : String) : Worker
  | downpour (model : Nat) (optimizer loss features_col label_col : String)
      (batch_size : Int) (master_host : String) (master_port : Int)
      (learning_rate : Rat) (communication_window : Int) : Worker
  | eamsgd (model : Nat) (optimizer loss features_col label_col : String)
      (batch_size : Int) (master_host : String) (master_port : Int)
      (rho learning_rate momentum : Rat) (communication_window : Int) : Worker
  | adag (model : Nat) (optimizer loss features_col label_col : String)
      (batch_size : Int) (master_host : String) (master_port : Int)
      (learning_rate : Rat) (communication_window : Int) : Worker
deriving DecidableEq, Repr

/-- Which parameter-server class was allocated, with the hyperparameters the
trainer passed to its constructor. -/
inductive PSKind where
  /-- `DeltaParameterServer(master_model, master_port)`. -/
  | delta : PSKind
  /-- `ADAGParameterServer(master_model, master_port, learning_rate, beta_1, beta_2)`. -/
  | adag (learning_rate beta_1 beta_2 : Rat) : PSKind
deriving DecidableEq, Repr

/-- Modelled from the spec: the parameter server (distkeras.parameter_servers,
not part of the trainer source) owns the canonical model state and an update
count, and its `stop()` signals the serving loop to terminate.  Only the
surface the trainers touch is modelled. -/
structure ParameterServer where
  model : Nat
  port : Int
  updates : Nat
  stopped : Bool
  kind : PSKind
deriving DecidableEq, Repr

/-- Modelled from the spec: `get_model()` returns the current canonical
model state held by the server. -/
def ParameterServer.get_model (ps : ParameterServer) : Nat :=
  ps.model

/-- Modelled from the spec: `num_updates()` returns the server's update count. -/
def ParameterServer.num_updates (ps : ParameterServer) : Nat :=
  ps.updates

/-- Modelled from the spec: `stop()` signals the serving loop to terminate;
it does not itself wait for loop exit. -/
def ParameterServer.stop (ps : ParameterServer) : ParameterServer :=
  { ps with stopped := true }

/-- A Spark dataframe, reduced to the only datum the trainers inspect:
its partition count. -/
structure DataFrame where
  numPartitions : Nat
deriving DecidableEq, Repr

/-- `dataframe.coalesce(n)`: Spark's coalesce only ever reduces the number
of partitions. -/
def DataFrame.coalesce (df : DataFrame) (n : Int) : DataFrame :=
  ⟨min df.numPartitions n.toNat⟩

/-- `dataframe.repartition(n)`: a full shuffle into exactly `n` partitions. -/
def DataFrame.repartition (_df : DataFrame) (n : Int) : DataFrame :=
  ⟨n.toNat⟩

/-- The registry of service threads spawned through `threading.Thread`:
a fresh-id counter and the ids of threads spawned but not yet joined. -/
structure Threads where
  nextId : Nat
  running : List Nat
deriving DecidableEq, Repr

/-- `threading.Thread(target=...).start()`: records a fresh running thread
and returns its id. -/
def Threads.spawn (ths : Threads) : Nat × Threads :=
  (ths.nextId, { nextId := ths.nextId + 1, running := ths.running ++ [ths.nextId] })

/-- `thread.join()`: blocks until the thread exits (its serving loop was told
to stop beforehand), after which it no longer counts as running. -/
def Threads.join (ths : Threads) (id : Nat) : Threads :=
  { ths with running := ths.running.erase id }

/-- Base class `Trainer` (trainers.py lines 23-86): serialized master model,
loss and optimizer identifiers, history list and the training-time record.
Keras models and history objects are opaque tokens; `serialize_keras_model`
is an external (de)serialization step modelled as the identity on tokens;
timestamps from `time.time()` are passed in explicitly. -/
structure Trainer where
  master_model : Nat
  loss : String
  worker_optimizer : String
  history : List Nat
  training_time_start : Int
  training_time_end : Int
  training_time : Int
deriving DecidableEq, Repr

/-- `Trainer.__init__(keras_model, loss, worker_optimizer)`. -/
def Trainer.init (keras_model : Nat) (loss worker_optimizer : String) : Trainer :=
  { master_model := keras_model
    loss := loss
    worker_optimizer := worker_optimizer
    history := []
    training_time_start := 0
    training_time_end := 0
    training_time := 0 }

/-- `record_training_start()`: resets the duration and stores the current time. -/
def Trainer.record_training_start (t : Trainer) (now : Int) : Trainer :=
  { t with training_time := 0, training_time_start := now }

/-- `record_training_end()`: stores the current time and the derived duration. -/
def Trainer.record_training_end (t : Trainer) (now : Int) : Trainer :=
  { t with training_time_end := now, training_time := now - t.training_time_start }

/-- `get_training_time()`. -/
def Trainer.get_training_time (t : Trainer) : Int :=
  t.training_time

/-- `get_history()`. -/
def Trainer.get_history (t : Trainer) : List Nat :=
  t.history

/-- `has_history()`: `len(self.history) > 0`. -/
def Trainer.has_history (t : Trainer) : Bool :=
  t.history.length > 0

/-- `add_history(history)`: `self.history.append(history)`. -/
def Trainer.add_history (t : Trainer) (history : Nat) : Trainer :=
  { t with history := t.history ++ [history] }

/-- The repartition decision shared by the trainers (trainers.py lines
247-250, 355-358 and 452-455): coalesce when the dataframe has more
partitions than the target, otherwise (fewer or equally many) repartition. -/
inductive RepartitionAction where
  | coalesceTo (n : Int) : RepartitionAction
  | repartitionTo (n : Int) : RepartitionAction
deriving DecidableEq, Repr

/-- `if num_partitions > target: dataframe.coalesce(target)
else: dataframe.repartition(target)`. -/
def repartitionPolicy (num_partitions target : Int) : RepartitionAction :=
  if num_partitions > target then .coalesceTo target else .repartitionTo target

/-- Run the chosen repartition call on the dataframe. -/
def DataFrame.applyAction (df : DataFrame) : RepartitionAction → DataFrame
  | .coalesceTo n => df.coalesce n
  | .repartitionTo n => df.repartition n

/-- The trace event corresponding to a repartition decision. -/
def RepartitionAction.event : RepartitionAction → Event
  | .coalesceTo n => .coalesce n
  | .repartitionTo n => .repartition n

/-- Class `SingleTrainer` (lines 89-149). -/
structure SingleTrainer extends Trainer where
  features_column : String
  label_column : String
  num_epoch : Int
  batch_size : Int
deriving DecidableEq, Repr

/-- `SingleTrainer.__init__` with the source's default arguments. -/
def SingleTrainer.init (keras_model : Nat) (worker_optimizer loss : String)
    (features_col : String := "features") (label_col : String := "label")
    (num_epoch : Int := 1) (batch_size : Int := 32) : SingleTrainer :=
  { toTrainer := Trainer.init keras_model loss worker_optimizer
    features_column := features_col
    label_column := label_col
    num_epoch := num_epoch
    batch_size := batch_size }

/-- `SingleTrainer.allocate_worker` (lines 112-121): builds and returns a
`SequentialWorker`.  The `Option` return type models Python's implicit
`None` result for allocation methods that lack a `return`. -/
def SingleTrainer.allocate_worker (t : SingleTrainer) : Option Worker :=
  let worker := Worker.sequential t.master_model t.features_column
      t.label_column t.batch_size t.worker_optimizer t.loss
  some worker

/-- The epoch loop of `SingleTrainer.train` (lines 141-145): every epoch
allocates a worker, runs the single-partition map job and overwrites
`master_model` with the collected result.  `mapRun` is the outcome oracle of
the external Spark job for each epoch. -/
def singleEpochs (df : DataFrame) (mapRun : Nat → Worker → Except PyError Nat) :
    SingleTrainer → Nat → Nat → List Event × Except PyError SingleTrainer
  | t, 0, _ => ([], .ok t)
  | t, n + 1, i =>
    match t.allocate_worker with
    | none => ([], .error .attributeErrorNone)
    | some w =>
      match mapRun i w with
      | .error e => ([Event.mapInvoked i df.numPartitions], .error e)
      | .ok m =>
        let res := singleEpochs df mapRun { t with master_model := m } n (i + 1)
        (Event.mapInvoked i df.numPartitions :: res.1, res.2)

/-- `SingleTrainer.train` (lines 123-149).  The boolean `shuffle` argument is
checked for truthiness and then *called* (`dataframe = shuffle(dataframe)`),
which raises a `TypeError` whenever the branch is taken.  On success the
deserialized final master model token and the updated trainer are returned
together with the trace of effects. -/
def SingleTrainer.train (t : SingleTrainer) (df : DataFrame) (shuffle : Bool)
    (mapRun : Nat → Worker → Except PyError Nat) (now1 now2 : Int) :
    List Event × Except PyError (Nat × SingleTrainer) :=
  if shuffle then ([], .error .typeErrorBoolNotCallable)
  else
    let df := df.coalesce 1
    let t : SingleTrainer :=
      { t with toTrainer := t.toTrainer.record_training_start now1 }
    match singleEpochs df mapRun t t.num_epoch.toNat 0 with
    | (evs, .error e) =>
      (Event.coalesce 1 :: Event.trainingStartRecorded :: evs, .error e)
    | (evs, .ok t) =>
      let t : SingleTrainer :=
        { t with toTrainer := t.toTrainer.record_training_end now2 }
      (Event.coalesce 1 :: Event.trainingStartRecorded :: evs
          ++ [Event.trainingEndRecorded],
        .ok (t.master_model, t))

/-- Class `EnsembleTrainer` (lines 196-258). -/
structure EnsembleTrainer extends Trainer where
  features_column : String
  label_column : String
  batch_size : Int
  num_ensembles : Int
deriving DecidableEq, Repr

/-- `EnsembleTrainer.__init__` with the source's default arguments. -/
def EnsembleTrainer.init (keras_model : Nat) (worker_optimizer loss : String)
    (features_col : String := "features") (label_col : String := "label")
    (batch_size : Int := 32) (num_ensembles : Int := 2) : EnsembleTrainer :=
  { toTrainer := Trainer.init keras_model loss worker_optimizer
    features_column := features_col
    label_column := label_col
    batch_size := batch_size
    num_ensembles := num_ensembles }

/-- `EnsembleTrainer.allocate_worker` (lines 221-227). -/
def EnsembleTrainer.allocate_worker (t : EnsembleTrainer) : Option Worker :=
  let worker := Worker.sequential t.master_model t.features_column
      t.label_column t.batch_size t.worker_optimizer t.loss
  some worker

/-- `EnsembleTrainer.train` (lines 229-258): allocate a worker, read the
partition count, check `shuffle` (calling the boolean raises).  The next
statement (line 247) reads `self.num_workers`, an attribute `EnsembleTrainer`
never sets (its constructor stores `num_ensembles` instead), so every call
that gets past the shuffle check raises `AttributeError` there; the rest of
the method (repartition, map, collect) is unreachable. -/
def EnsembleTrainer.train (t : EnsembleTrainer) (df : DataFrame) (shuffle : Bool)
    (_mapRun : Worker → Except PyError (List Nat)) (_now1 _now2 : Int) :
    List Event × Except PyError (List Nat × EnsembleTrainer) :=
  match t.allocate_worker with
  | none => ([], .error .attributeErrorNone)
  | some _w =>
    let _num_partitions : Int := df.numPartitions
    if shuffle then ([], .error .typeErrorBoolNotCallable)
    else ([], .error .attributeErrorMissing)

/-- Abstract class `DistributedTrainer` (lines 261-369).  `master_host` is
obtained from the external `determine_host_address()`, so the detected
address is a constructor argument here. -/
structure DistributedTrainer extends Trainer where
  num_workers : Int
  batch_size : Int
  features_column : String
  label_column : String
  num_epoch : Int
  parameter_server : Option ParameterServer
  parameter_server_thread : Option Nat
  master_host : String
  master_port : Int
deriving DecidableEq, Repr

/-- `DistributedTrainer.__init__` (lines 277-288) with the source's default
arguments; `parameter_server` and its thread start out as `None` and the
port is fixed at 5000. -/
def DistributedTrainer.init (keras_model : Nat) (worker_optimizer loss : String)
    (host_address : String) (num_workers : Int := 2) (batch_size : Int := 32)
    (features_col : String := "features") (label_col : String := "label")
    (num_epoch : Int := 1) : DistributedTrainer :=
  { toTrainer := Trainer.init keras_model loss worker_optimizer
    num_workers := num_workers
    batch_size := batch_size
    features_column := features_col
    label_column := label_col
    num_epoch := num_epoch
    parameter_server := none
    parameter_server_thread := none
    master_host := host_address
    master_port := 5000 }

/-- `DistributedTrainer.allocate_parameter_server` (lines 297-305):
`DeltaParameterServer(self.master_model, self.master_port)`. -/
def DistributedTrainer.allocate_parameter_server
    (t : DistributedTrainer) : ParameterServer :=
  { model := t.master_model
    port := t.master_port
    updates := 0
    stopped := false
    kind := .delta }

/-- `DistributedTrainer.num_updates` (lines 307-309):
`self.parameter_server.num_updates()`; raises when `parameter_server` is
still `None`. -/
def DistributedTrainer.num_updates (t : DistributedTrainer) : Except PyError Nat :=
  match t.parameter_server with
  | none => .error .attributeErrorNone
  | some ps => .ok ps.num_updates

/-- `DistributedTrainer.stop_service` (lines 317-321):
`self.parameter_server.stop()`, then `self.parameter_server_thread.join()`,
then clear the thread field.  Either attribute being `None` raises. -/
def DistributedTrainer.stop_service (t : DistributedTrainer) (ths : Threads) :
    Except PyError (DistributedTrainer × Threads) :=
  match t.parameter_server with
  | none => .error .attributeErrorNone
  | some ps =>
    let t := { t with parameter_server := some ps.stop }
    match t.parameter_server_thread with
    | none => .error .attributeErrorNone
    | some tid =>
      .ok ({ t with parameter_server_thread := none }, ths.join tid)

/-- `DistributedTrainer.start_service` (lines 323-331): stop any recorded
service thread first, then spawn a fresh thread running `service()` and
record it. -/
def DistributedTrainer.start_service (t : DistributedTrainer) (ths : Threads) :
    Except PyError (DistributedTrainer × Threads) :=
  match (if t.parameter_server_thread.isSome
          then t.stop_service ths else .ok (t, ths)) with
  | .error e => .error e
  | .ok (t, ths) =>
    let s := ths.spawn
    .ok ({ t with parameter_server_thread := some s.1 }, s.2)

/-- The epoch loop shared by `DistributedTrainer.train` (lines 362-363) and
`AsynchronousDistributedTrainer.train` (lines 459-460): each iteration runs
`dataframe.rdd.mapPartitionsWithIndex(worker.train).collect()` and discards
the result.  `worker` is the value returned by `allocate_worker()`: accessing
`.train` on `None` raises; `mapRun` is the outcome oracle for the external
Spark job at each epoch index. -/
def runEpochs (p : Nat) (mapRun : Nat → Except PyError Unit)
    (worker : Option Worker) : Nat → Nat → List Event × Except PyError Unit
  | 0, _ => ([], .ok ())
  | n + 1, i =>
    match worker with
    | none => ([], .error .attributeErrorNone)
    | some _w =>
      match mapRun i with
      | .error e => ([Event.mapInvoked i p], .error e)
      | .ok _ =>
        let res := runEpochs p mapRun worker n (i + 1)
        (Event.mapInvoked i p :: res.1, res.2)

/-- `DistributedTrainer.train` (lines 333-369): allocate the parameter
server, start the service, allocate a worker, read the partition count,
check `shuffle` (calling the boolean raises), repartition to `num_workers`,
record start, run the epoch loop, record end, stop the service and return
`self.parameter_server.get_model()`.  `allocPS` and `allocWorker` are the
results of the dynamically dispatched `allocate_parameter_server()` and
`allocate_worker()` calls (the base-class `allocate_worker` raises
`NotImplementedError`; subclass overrides return a worker or `None`). -/
def DistributedTrainer.train (t : DistributedTrainer) (ths : Threads)
    (df : DataFrame) (shuffle : Bool) (allocPS : ParameterServer)
    (allocWorker : Except PyError (Option Worker))
    (mapRun : Nat → Except PyError Unit) (now1 now2 : Int) :
    List Event × Except PyError (Nat × DistributedTrainer × Threads) :=
  let t := { t with parameter_server := some allocPS }
  match t.start_service ths with
  | .error e => ([], .error e)
  | .ok (t, ths) =>
    match allocWorker with
    | .error e => ([Event.serviceStart], .error e)
    | .ok worker =>
      let num_partitions : Int := df.numPartitions
      if shuffle then ([Event.serviceStart], .error .typeErrorBoolNotCallable)
      else
        let act := repartitionPolicy num_partitions t.num_workers
        let df := df.applyAction act
        let t := { t with toTrainer := t.toTrainer.record_training_start now1 }
        match runEpochs df.numPartitions mapRun worker t.num_epoch.toNat 0 with
        | (evs, .error e) =>
          (Event.serviceStart :: act.event :: Event.trainingStartRecorded :: evs,
            .error e)
        | (evs, .ok _) =>
          let t := { t with toTrainer := t.toTrainer.record_training_end now2 }
          match t.stop_service ths with
          | .error e =>
            (Event.serviceStart :: act.event :: Event.trainingStartRecorded ::
                evs ++ [Event.trainingEndRecorded], .error e)
          | .ok (t, ths) =>
            let evs := Event.serviceStart :: act.event ::
                Event.trainingStartRecorded :: evs ++
                [Event.trainingEndRecorded, Event.serviceStop]
            match t.parameter_server with
            | none => (evs, .error .attributeErrorNone)
            | some ps => (evs, .ok (ps.get_model, t, ths))

/-- Abstract class `AsynchronousDistributedTrainer` (lines 372-466); its
constructor defers to `DistributedTrainer.__init__` and sets the
parallelism factor to 1. -/
structure AsynchronousDistributedTrainer extends DistributedTrainer where
  parallelism_factor : Int
deriving DecidableEq, Repr

/-- `AsynchronousDistributedTrainer.__init__` (lines 401-407). -/
def AsynchronousDistributedTrainer.init (keras_model : Nat)
    (worker_optimizer loss : String) (host_address : String)
    (num_workers : Int := 2) (batch_size : Int := 32)
    (features_col : String := "features") (label_col : String := "label")
    (num_epoch : Int := 1) : AsynchronousDistributedTrainer :=
  { toDistributedTrainer :=
      DistributedTrainer.init keras_model worker_optimizer loss host_address
        num_workers batch_size features_col label_col num_epoch
    parallelism_factor := 1 }

/-- `set_parallelism_factor` (lines 416-422): installs the given factor
unconditionally. -/
def AsynchronousDistributedTrainer.set_parallelism_factor
    (t : AsynchronousDistributedTrainer) (factor : Int) :
    AsynchronousDistributedTrainer :=
  { t with parallelism_factor := factor }

/-- `get_parallelism_factor` (lines 424-426). -/
def AsynchronousDistributedTrainer.get_parallelism_factor
    (t : AsynchronousDistributedTrainer) : Int :=
  t.parallelism_factor

/-- `AsynchronousDistributedTrainer.train` (lines 428-466): identical to the
synchronous variant except that the repartition target is
`self.parallelism_factor * self.num_workers`. -/
def AsynchronousDistributedTrainer.train (t : AsynchronousDistributedTrainer)
    (ths : Threads) (df : DataFrame) (shuffle : Bool) (allocPS : ParameterServer)
    (allocWorker : Except PyError (Option Worker))
    (mapRun : Nat → Except PyError Unit) (now1 now2 : Int) :
    List Event × Except PyError (Nat × AsynchronousDistributedTrainer × Threads) :=
  let t := { t with parameter_server := some allocPS }
  match t.toDistributedTrainer.start_service ths with
  | .error e => ([], .error e)
  | .ok (d, ths) =>
    let t := { t with toDistributedTrainer := d }
    match allocWorker with
    | .error e => ([Event.serviceStart], .error e)
    | .ok worker =>
      let num_partitions : Int := df.numPartitions
      if shuffle then ([Event.serviceStart], .error .typeErrorBoolNotCallable)
      else
        let parallelism := t.parallelism_factor * t.num_workers
        let act := repartitionPolicy num_partitions parallelism
        let df := df.applyAction act
        let t := { t with toTrainer := t.toTrainer.record_training_start now1 }
        match runEpochs df.numPartitions mapRun worker t.num_epoch.toNat 0 with
        | (evs, .error e) =>
          (Event.serviceStart :: act.event :: Event.trainingStartRecorded :: evs,
            .error e)
        | (evs, .ok _) =>
          let t := { t with toTrainer := t.toTrainer.record_training_end now2 }
          match t.toDistributedTrainer.stop_service ths with
          | .error e =>
            (Event.serviceStart :: act.event :: Event.trainingStartRecorded ::
                evs ++ [Event.trainingEndRecorded], .error e)
          | .ok (d, ths) =>
            let t := { t with toDistributedTrainer := d }
            let evs := Event.serviceStart :: act.event ::
                Event.trainingStartRecorded :: evs ++
                [Event.trainingEndRecorded, Event.serviceStop]
            match t.parameter_server with
            | none => (evs, .error .attributeErrorNone)
            | some ps => (evs, .ok (ps.get_model, t, ths))

/-- Class `DOWNPOUR` (lines 469-509). -/
structure DOWNPOUR extends AsynchronousDistributedTrainer where
  learning_rate : Rat
  communication_window : Int
deriving DecidableEq, Repr

/-- `DOWNPOUR.__init__` (lines 493-499) with the source's default arguments. -/
def DOWNPOUR.init (keras_model : Nat) (worker_optimizer loss : String)
    (host_address : String) (num_workers : Int := 2) (batch_size : Int := 32)
    (features_col : String := "features") (label_col : String := "label")
    (num_epoch : Int := 1) (learning_rate : Rat := 1 / 10)
    (communication_window : Int := 5) : DOWNPOUR :=
  { toAsynchronousDistributedTrainer :=
      AsynchronousDistributedTrainer.init keras_model worker_optimizer loss
        host_address num_workers batch_size features_col label_col num_epoch
    learning_rate := learning_rate
    communication_window := communication_window }

/-- `DOWNPOUR.allocate_worker` (lines 501-509): builds a `DOWNPOURWorker`
from the trainer's configuration and the coordinator's server address, and
returns it. -/
def DOWNPOUR.allocate_worker (t : DOWNPOUR) : Option Worker :=
  let worker := Worker.downpour t.master_model t.worker_optimizer t.loss
      t.features_column t.label_column t.batch_size t.master_host
      t.master_port t.learning_rate t.communication_window
  some worker

/-- Class `EAMSGD` (lines 512-559). -/
structure EAMSGD extends AsynchronousDistributedTrainer where
  communication_window : Int
  rho : Rat
  learning_rate : Rat
  momentum : Rat
deriving DecidableEq, Repr

/-- `EAMSGD.__init__` (lines 541-549) with the source's default arguments. -/
def EAMSGD.init (keras_model : Nat) (worker_optimizer loss : String)
    (host_address : String) (num_workers : Int := 2) (batch_size : Int := 32)
    (features_col : String := "features") (label_col : String := "label")
    (num_epoch : Int := 1) (communication_window : Int := 32)
    (rho : Rat := 5) (learning_rate : Rat := 1 / 10)
    (momentum : Rat := 9 / 10) : EAMSGD :=
  { toAsynchronousDistributedTrainer :=
      AsynchronousDistributedTrainer.init keras_model worker_optimizer loss
        host_address num_workers batch_size features_col label_col num_epoch
    communication_window := communication_window
    rho := rho
    learning_rate := learning_rate
    momentum := momentum }

/-- `EAMSGD.allocate_worker` (lines 551-559): builds an `EAMSGDWorker` from
the trainer's configuration and the coordinator's server address, and
returns it. -/
def EAMSGD.allocate_worker (t : EAMSGD) : Option Worker :=
  let worker := Worker.eamsgd t.master_model t.worker_optimizer t.loss
      t.features_column t.label_column t.batch_size t.master_host
      t.master_port t.rho t.learning_rate t.momentum t.communication_window
  some worker

/-- Class `ADAG` (lines 562-609). -/
structure ADAG extends AsynchronousDistributedTrainer where
  communication_window : Int
  learning_rate : Rat
  beta_1 : Rat
  beta_2 : Rat
deriving DecidableEq, Repr

/-- `ADAG.__init__` (lines 586-595) with the source's default arguments. -/
def ADAG.init (keras_model : Nat) (worker_optimizer loss : String)
    (host_address : String) (num_workers : Int := 2) (batch_size : Int := 32)
    (features_col : String := "features") (label_col : String := "label")
    (num_epoch : Int := 1) (communication_window : Int := 5)
    (learning_rate : Rat := 1 / 10) (beta_1 : Rat := 9 / 10)
    (beta_2 : Rat := 999 / 1000) : ADAG :=
  { toAsynchronousDistributedTrainer :=
      AsynchronousDistributedTrainer.init keras_model worker_optimizer loss
        host_address num_workers batch_size features_col label_col num_epoch
    communication_window := communication_window
    learning_rate := learning_rate
    beta_1 := beta_1
    beta_2 := beta_2 }

/-- `ADAG.allocate_worker` (lines 597-602): builds an `ADAGWorker` but,
unlike its siblings, the method body has no `return` statement, so the
Python method returns `None`. -/
def ADAG.allocate_worker (t : ADAG) : Option Worker :=
  let _worker := Worker.adag t.master_model t.worker_optimizer t.loss
      t.features_column t.label_column t.batch_size t.master_host
      t.master_port t.learning_rate t.communication_window
  none

/-- `ADAG.allocate_parameter_server` (lines 604-609):
`ADAGParameterServer(self.master_model, self.master_port,
self.learning_rate, self.beta_1, self.beta_2)`. -/
def ADAG.allocate_parameter_server (t : ADAG) : ParameterServer :=
  { model := t.master_model
    port := t.master_port
    updates := 0
    stopped := false
    kind := .adag t.learning_rate t.beta_1 t.beta_2 }

/-- The empty thread registry: nothing spawned yet. -/
def threads0 : Threads := { nextId := 0, running := [] }

/-- A concrete `DOWNPOUR` trainer built with the source's default arguments. -/
def downpourEx : DOWNPOUR :=
  DOWNPOUR.init 10 "adagrad" "categorical_crossentropy" "127.0.0.1"

/-- A concrete `ADAG` trainer built with the source's default arguments. -/
def adagEx : ADAG := ADAG.init 11 "adam" "mse" "127.0.0.1"

/-- A fresh (idle) distributed trainer: no parameter server, no thread. -/
def idleEx : DistributedTrainer := DistributedTrainer.init 10 "sgd" "mse" "127.0.0.1"

/-- A concrete distributed trainer whose parameter server has been allocated. -/
def distEx : DistributedTrainer :=
  { idleEx with parameter_server := some idleEx.allocate_parameter_server }

/-- A concrete `SingleTrainer` and `EnsembleTrainer` for witnesses. -/
def singleEx : SingleTrainer := SingleTrainer.init 10 "sgd" "mse"

/-- A concrete `EnsembleTrainer` for witnesses. -/
def ensembleEx : EnsembleTrainer := EnsembleTrainer.init 10 "sgd" "mse"

/-- When every map job from epoch `i` on succeeds, the epoch loop emits one
`mapInvoked` event per epoch, in order, and returns success. -/
theorem runEpochs_ok (p : Nat) (mapRun : Nat → Except PyError Unit) (w : Worker) :
    ∀ (n i : Nat), (∀ j, j < n → mapRun (i + j) = .ok ()) →
      runEpochs p mapRun (some w) n i =
        ((List.range' i n).map (fun j => Event.mapInvoked j p), .ok ())
  | 0, i, _ => by simp [runEpochs]
  | n + 1, i, h => by
    have h0 : mapRun i = .ok () := by simpa using h 0 n.succ_pos
    have ih := runEpochs_ok p mapRun w n (i + 1) (fun j hj => by
      have hj1 := h (j + 1) (by omega)
      rwa [show i + (j + 1) = i + 1 + j by omega] at hj1)
    simp [runEpochs, h0, ih, List.range'_succ]

/-- When the map jobs succeed up to epoch `i + k` and the one at `i + k`
raises, the epoch loop emits the `k + 1` performed invocations and
propagates the error. -/
theorem runEpochs_err (p : Nat) (mapRun : Nat → Except PyError Unit) (w : Worker)
    (e : PyError) :
    ∀ (n i k : Nat), k < n → (∀ j, j < k → mapRun (i + j) = .ok ()) →
      mapRun (i + k) = .error e →
      runEpochs p mapRun (some w) n i =
        ((List.range' i (k + 1)).map (fun j => Event.mapInvoked j p), .error e)
  | 0, _, k, hk, _, _ => absurd hk (Nat.not_lt_zero k)
  | n + 1, i, 0, _, _, herr => by
    have h0 : mapRun i = .error e := by simpa using herr
    simp [runEpochs, h0, List.range'_succ]
  | n + 1, i, k + 1, hk, hok, herr => by
    have h0 : mapRun i = .ok () := by simpa using hok 0 k.succ_pos
    have ih := runEpochs_err p mapRun w e n (i + 1) k (by omega)
      (fun j hj => by
        have hj1 := hok (j + 1) (by omega)
        rwa [show i + (j + 1) = i + 1 + j by omega] at hj1)
      (by rwa [show i + (k + 1) = i + 1 + k by omega] at herr)
    simp [runEpochs, h0, ih, List.range'_succ]

/-- Success path of `AsynchronousDistributedTrainer.train`, starting from a
trainer with no recorded service thread and with every map job succeeding:
the full trace and the returned model, trainer state and thread registry. -/
theorem asyncTrain_ok (t : AsynchronousDistributedTrainer) (ths : Threads)
    (df : DataFrame) (allocPS : ParameterServer) (w : Worker)
    (mapRun : Nat → Except PyError Unit) (now1 now2 : Int)
    (hth : t.parameter_server_thread = none)
    (hmap : ∀ j, j < t.num_epoch.toNat → mapRun j = .ok ()) :
    t.train ths df false allocPS (.ok (some w)) mapRun now1 now2 =
      (Event.serviceStart ::
        (repartitionPolicy df.numPartitions
          (t.parallelism_factor * t.num_workers)).event ::
        Event.trainingStartRecorded ::
        ((List.range t.num_epoch.toNat).map (fun j => Event.mapInvoked j
          (df.applyAction (repartitionPolicy df.numPartitions
            (t.parallelism_factor * t.num_workers))).numPartitions) ++
          [Event.trainingEndRecorded, Event.serviceStop]),
        .ok (allocPS.model,
          { t with parameter_server := some allocPS.stop
                   parameter_server_thread := none
                   training_time := now2 - now1
                   training_time_start := now1
                   training_time_end := now2 },
          { nextId := ths.nextId + 1
            running := (ths.running ++ [ths.nextId]).erase ths.nextId })) := by
  have hrun := runEpochs_ok
    (df.applyAction (repartitionPolicy df.numPartitions
      (t.parallelism_factor * t.num_workers))).numPartitions
    mapRun w t.num_epoch.toNat 0 (fun j hj => by simpa using hmap j hj)
  simp only [AsynchronousDistributedTrainer.train,
    DistributedTrainer.start_service, DistributedTrainer.stop_service,
    Trainer.record_training_start, Trainer.record_training_end,
    Threads.spawn, Threads.join, ParameterServer.get_model,
    ParameterServer.stop, hth, hrun, List.range_eq_range']
  simp [hth, hrun, List.range_eq_range']

/-- Error path of `AsynchronousDistributedTrainer.train`: when the map job
of epoch `k` raises (all earlier ones succeeding), the error propagates to
the caller and the trace ends with that map invocation — in particular no
`serviceStop` effect ever happens. -/
theorem asyncTrain_err (t : AsynchronousDistributedTrainer) (ths : Threads)
    (df : DataFrame) (allocPS : ParameterServer) (w : Worker)
    (mapRun : Nat → Except PyError Unit) (now1 now2 : Int) (e : PyError) (k : Nat)
    (hth : t.parameter_server_thread = none)
    (hk : k < t.num_epoch.toNat)
    (hok : ∀ j, j < k → mapRun j = .ok ())
    (herr : mapRun k = .error e) :
    t.train ths df false allocPS (.ok (some w)) mapRun now1 now2 =
      (Event.serviceStart ::
        (repartitionPolicy df.numPartitions
          (t.parallelism_factor * t.num_workers)).event ::
        Event.trainingStartRecorded ::
        (List.range' 0 (k + 1)).map (fun j => Event.mapInvoked j
          (df.applyAction (repartitionPolicy df.numPartitions
            (t.parallelism_factor * t.num_workers))).numPartitions),
        .error e) := by
  have hrun := runEpochs_err
    (df.applyAction (repartitionPolicy df.numPartitions
      (t.parallelism_factor * t.num_workers))).numPartitions
    mapRun w e t.num_epoch.toNat 0 k hk
    (fun j hj => by simpa using hok j hj) (by simpa using herr)
  simp only [AsynchronousDistributedTrainer.train,
    DistributedTrainer.start_service, DistributedTrainer.stop_service,
    Trainer.record_training_start, Threads.spawn, hth, hrun]
  simp [hth, hrun]

/-- A list of `mapInvoked` events never contains a `serviceStop`. -/
theorem count_serviceStop_mapEvents (p : Nat) (l : List Nat) :
    (l.map fun j => Event.mapInvoked j p).count Event.serviceStop = 0 := by
  rw [List.count_eq_zero]
  intro hmem
  rcases List.mem_map.mp hmem with ⟨j, _, hj⟩
  exact absurd hj (by simp)

/-- A repartition decision never produces the `serviceStop` effect. -/
theorem RepartitionAction.event_ne_serviceStop (a : RepartitionAction) :
    a.event ≠ Event.serviceStop := by
  cases a <;> simp [RepartitionAction.event]

/-- A concrete failing run: a default `DOWNPOUR` trainer, a 4-partition
dataframe, and a Spark map job that raises at epoch 0. -/
def failingRunC1 :
    List Event × Except PyError (Nat × AsynchronousDistributedTrainer × Threads) :=
  AsynchronousDistributedTrainer.train downpourEx.toAsynchronousDistributedTrainer
    threads0 ⟨4⟩ false
    (DistributedTrainer.allocate_parameter_server downpourEx.toDistributedTrainer)
    (.ok downpourEx.allocate_worker) (fun _ => .error (.mapError 7)) 3 9

/-- Claim C1 (counterexample): on a concrete trainer whose distributed-map
raises at epoch 0, `train()` propagates the exception without ever invoking
`stop_service()` — the trace contains no `serviceStop` effect, so the claim
that the service-stop step is never skipped is false on the code. -/
theorem C1_counterexample :
    failingRunC1.2 = .error (.mapError 7) ∧
    failingRunC1.1.count Event.serviceStop = 0 := by
  constructor <;> rfl

/-- Claim C1 (amended): starting from a trainer with no recorded service
thread, `train()` invokes `stop_service()` exactly once when every
distributed-map invocation succeeds; when the map invocation of some epoch
raises, the exception propagates to the caller and `stop_service()` is never
invoked — the cleanup step is skipped on the failure path. -/
theorem C1_stop_service_on_success_only (t : AsynchronousDistributedTrainer)
    (ths : Threads) (df : DataFrame) (allocPS : ParameterServer) (w : Worker)
    (mapRun : Nat → Except PyError Unit) (now1 now2 : Int)
    (hth : t.parameter_server_thread = none) :
    ((∀ j, j < t.num_epoch.toNat → mapRun j = .ok ()) →
      (t.train ths df false allocPS (.ok (some w)) mapRun now1 now2).1.count
          Event.serviceStop = 1 ∧
      ∃ r, (t.train ths df false allocPS (.ok (some w)) mapRun now1 now2).2 =
        .ok r) ∧
    (∀ (e : PyError) (k : Nat), k < t.num_epoch.toNat →
      (∀ j, j < k → mapRun j = .ok ()) → mapRun k = .error e →
      (t.train ths df false allocPS (.ok (some w)) mapRun now1 now2).2 =
        .error e ∧
      (t.train ths df false allocPS (.ok (some w)) mapRun now1 now2).1.count
          Event.serviceStop = 0) := by
  constructor
  · intro hmap
    rw [asyncTrain_ok t ths df allocPS w mapRun now1 now2 hth hmap]
    refine ⟨?_, _, rfl⟩
    have hact := RepartitionAction.event_ne_serviceStop
      (repartitionPolicy df.numPartitions (t.parallelism_factor * t.num_workers))
    simp [List.count_cons, List.count_append, count_serviceStop_mapEvents,
      Ne.symm hact]
  · intro e k hk hok herr
    rw [asyncTrain_err t ths df allocPS w mapRun now1 now2 e k hth hk hok herr]
    have hact := RepartitionAction.event_ne_serviceStop
      (repartitionPolicy df.numPartitions (t.parallelism_factor * t.num_workers))
    refine ⟨rfl, ?_⟩
    simp [List.count_cons, List.count_append, count_serviceStop_mapEvents,
      Ne.symm hact]

/-- Claim C1 (witness): the amended lifecycle statement instantiated on a
concrete default `DOWNPOUR` trainer, for a failing map job at epoch 0. -/
theorem C1_stop_service_on_success_only_witness :
    (AsynchronousDistributedTrainer.train
        downpourEx.toAsynchronousDistributedTrainer threads0 ⟨4⟩ false
        (DistributedTrainer.allocate_parameter_server
          downpourEx.toDistributedTrainer)
        (.ok downpourEx.allocate_worker)
        (fun _ => .error (.mapError 7)) 3 9).2 = .error (.mapError 7) ∧
    (AsynchronousDistributedTrainer.train
        downpourEx.toAsynchronousDistributedTrainer threads0 ⟨4⟩ false
        (DistributedTrainer.allocate_parameter_server
          downpourEx.toDistributedTrainer)
        (.ok downpourEx.allocate_worker)
        (fun _ => .error (.mapError 7)) 3 9).1.count Event.serviceStop = 0 :=
  (C1_stop_service_on_success_only
      downpourEx.toAsynchronousDistributedTrainer threads0 ⟨4⟩
      (DistributedTrainer.allocate_parameter_server
        downpourEx.toDistributedTrainer)
      (Worker.downpour 10 "adagrad" "categorical_crossentropy" "features"
        "label" 32 "127.0.0.1" 5000 (1 / 10) 5)
      (fun _ => .error (.mapError 7)) 3 9 rfl).2
    (.mapError 7) 0 (by decide) (fun j hj => absurd hj (Nat.not_lt_zero j)) rfl

/-- A concrete run in which the dataframe's natural partition count equals
the parallelism target: default `DOWNPOUR` (target 1 × 2 = 2) on a
2-partition dataframe, with all map jobs succeeding. -/
def equalPartitionRun :
    List Event × Except PyError (Nat × AsynchronousDistributedTrainer × Threads) :=
  AsynchronousDistributedTrainer.train downpourEx.toAsynchronousDistributedTrainer
    threads0 ⟨2⟩ false
    (DistributedTrainer.allocate_parameter_server downpourEx.toDistributedTrainer)
    (.ok downpourEx.allocate_worker) (fun _ => .ok ()) 3 9

/-- Claim C2 (counterexample): with P = T = 2 the pre-training repartition
step does not leave the dataframe untouched — `train()`'s trace contains a
`repartition(2)` call (the source's `else` branch covers `P = T`), so the
claimed no-op case is false on the code. -/
theorem C2_counterexample :
    Event.repartition 2 ∈ equalPartitionRun.1 ∧
    equalPartitionRun.1.count (Event.coalesce 2) = 0 := by
  constructor
  · decide
  · rfl

/-- Claim C2 (amended): with target T = parallelism_factor × num_workers ≥ 1,
the pre-training repartition step coalesces to T when P > T and invokes a
full repartition to T whenever P ≤ T — including P = T, which is not a
no-op — and in every case the prepared dataframe has exactly T partitions. -/
theorem C2_partition_policy (t : AsynchronousDistributedTrainer) (df : DataFrame)
    (hT : 1 ≤ t.parallelism_factor * t.num_workers) :
    ((df.numPartitions : Int) > t.parallelism_factor * t.num_workers →
      repartitionPolicy df.numPartitions (t.parallelism_factor * t.num_workers) =
        .coalesceTo (t.parallelism_factor * t.num_workers)) ∧
    ((df.numPartitions : Int) ≤ t.parallelism_factor * t.num_workers →
      repartitionPolicy df.numPartitions (t.parallelism_factor * t.num_workers) =
        .repartitionTo (t.parallelism_factor * t.num_workers)) ∧
    ((df.applyAction (repartitionPolicy df.numPartitions
        (t.parallelism_factor * t.num_workers))).numPartitions : Int) =
      t.parallelism_factor * t.num_workers := by
  refine ⟨fun hgt => by simp [repartitionPolicy, hgt], fun hle => by
    simp [repartitionPolicy, not_lt_of_le hle], ?_⟩
  by_cases hgt : (df.numPartitions : Int) > t.parallelism_factor * t.num_workers
  · simp only [repartitionPolicy, if_pos hgt, DataFrame.applyAction,
      DataFrame.coalesce]
    omega
  · simp only [repartitionPolicy, if_neg hgt, DataFrame.applyAction,
      DataFrame.repartition]
    omega

/-- Claim C2 (witness): the partition policy instantiated on a concrete
default `DOWNPOUR` trainer (target 2) and a 5-partition dataframe. -/
theorem C2_partition_policy_witness :
    (((5 : Nat) : Int) > downpourEx.parallelism_factor * downpourEx.num_workers →
      repartitionPolicy 5
          (downpourEx.parallelism_factor * downpourEx.num_workers) =
        .coalesceTo (downpourEx.parallelism_factor * downpourEx.num_workers)) ∧
    (((5 : Nat) : Int) ≤ downpourEx.parallelism_factor * downpourEx.num_workers →
      repartitionPolicy 5
          (downpourEx.parallelism_factor * downpourEx.num_workers) =
        .repartitionTo (downpourEx.parallelism_factor * downpourEx.num_workers)) ∧
    (((DataFrame.applyAction ⟨5⟩ (repartitionPolicy 5
        (downpourEx.parallelism_factor * downpourEx.num_workers))).numPartitions :
        Int) = downpourEx.parallelism_factor * downpourEx.num_workers) :=
  C2_partition_policy downpourEx.toAsynchronousDistributedTrainer ⟨5⟩ (by decide)

/-- Claim C3: `DOWNPOUR.allocate_worker` and `EAMSGD.allocate_worker` return
the worker configured with the coordinator's server address and the
algorithm's hyperparameters, but `ADAG.allocate_worker` returns `None` —
its body lacks the `return` statement — so the claim fails for ADAG. -/
theorem C3_allocate_worker :
    (∀ t : DOWNPOUR, t.allocate_worker =
      some (Worker.downpour t.master_model t.worker_optimizer t.loss
        t.features_column t.label_column t.batch_size t.master_host
        t.master_port t.learning_rate t.communication_window)) ∧
    (∀ t : EAMSGD, t.allocate_worker =
      some (Worker.eamsgd t.master_model t.worker_optimizer t.loss
        t.features_column t.label_column t.batch_size t.master_host
        t.master_port t.rho t.learning_rate t.momentum
        t.communication_window)) ∧
    (∀ t : ADAG, t.allocate_worker = none) :=
  ⟨fun _ => rfl, fun _ => rfl, fun _ => rfl⟩

/-- Claim C4: if the parameter server is allocated and the thread registry
is consistent with the recorded service thread, then after two consecutive
`start_service()` calls both calls succeed, exactly one service thread is
recorded, and it is the only thread still running — every previously
spawned service thread has been joined. -/
theorem C4_start_service_twice (t : DistributedTrainer) (ths : Threads)
    (ps : ParameterServer)
    (hps : t.parameter_server = some ps)
    (hinv : ths.running = t.parameter_server_thread.toList) :
    ∃ t1 ths1 t2 ths2 id,
      t.start_service ths = .ok (t1, ths1) ∧
      t1.start_service ths1 = .ok (t2, ths2) ∧
      t2.parameter_server_thread = some id ∧
      ths2.running = [id] := by
  rcases hth : t.parameter_server_thread with _ | tid <;> rw [hth] at hinv
  · refine ⟨{ t with parameter_server_thread := some ths.nextId },
      ⟨ths.nextId + 1, ths.running ++ [ths.nextId]⟩,
      { t with parameter_server := some ps.stop
               parameter_server_thread := some (ths.nextId + 1) },
      ⟨ths.nextId + 2,
        ((ths.running ++ [ths.nextId]).erase ths.nextId) ++ [ths.nextId + 1]⟩,
      ths.nextId + 1, ?_, ?_, rfl, ?_⟩
    · simp [DistributedTrainer.start_service, hth, Threads.spawn]
    · simp [DistributedTrainer.start_service, DistributedTrainer.stop_service,
        hps, Threads.spawn, Threads.join]
    · simp [hinv]
  · refine ⟨{ t with parameter_server := some ps.stop
                     parameter_server_thread := some ths.nextId },
      ⟨ths.nextId + 1, (ths.running.erase tid) ++ [ths.nextId]⟩,
      { t with parameter_server := some ps.stop.stop
               parameter_server_thread := some (ths.nextId + 1) },
      ⟨ths.nextId + 2,
        (((ths.running.erase tid) ++ [ths.nextId]).erase ths.nextId) ++
          [ths.nextId + 1]⟩,
      ths.nextId + 1, ?_, ?_, rfl, ?_⟩
    · simp [DistributedTrainer.start_service, DistributedTrainer.stop_service,
        hth, hps, Threads.spawn, Threads.join]
    · simp [DistributedTrainer.start_service, DistributedTrainer.stop_service,
        hps, Threads.spawn, Threads.join]
    · simp [hinv]

/-- Claim C4 (witness): two consecutive `start_service()` calls on a
concrete distributed trainer with an allocated parameter server and an
empty thread registry. -/
theorem C4_start_service_twice_witness :
    ∃ t1 ths1 t2 ths2 id,
      distEx.start_service threads0 = .ok (t1, ths1) ∧
      t1.start_service ths1 = .ok (t2, ths2) ∧
      t2.parameter_server_thread = some id ∧
      ths2.running = [id] :=
  C4_start_service_twice distEx threads0 idleEx.allocate_parameter_server rfl rfl

/-- Claim C5 (counterexample): `set_parallelism_factor(0)` on a default
`DOWNPOUR` trainer installs 0, so a trainer with parallelism factor below 1
is reachable through the public constructors and setter — the claimed
invariant is not maintained by the code. -/
theorem C5_counterexample :
    ¬ 1 ≤ (AsynchronousDistributedTrainer.set_parallelism_factor
      downpourEx.toAsynchronousDistributedTrainer 0).parallelism_factor := by
  decide

/-- Claim C5 (amended): trainers built by the public constructors with their
default arguments do satisfy communication_window ≥ 1, num_workers ≥ 1 and
parallelism_factor ≥ 1, but no validation is performed anywhere: the
constructors and `set_parallelism_factor()` install whatever value they are
given, so values below 1 are accepted rather than rejected. -/
theorem C5_config_no_validation :
    (∀ (km : Nat) (wo loss host : String),
      1 ≤ (DOWNPOUR.init km wo loss host).communication_window ∧
      1 ≤ (DOWNPOUR.init km wo loss host).num_workers ∧
      1 ≤ (DOWNPOUR.init km wo loss host).parallelism_factor) ∧
    (∀ (km : Nat) (wo loss host : String),
      1 ≤ (EAMSGD.init km wo loss host).communication_window ∧
      1 ≤ (EAMSGD.init km wo loss host).num_workers ∧
      1 ≤ (EAMSGD.init km wo loss host).parallelism_factor) ∧
    (∀ (km : Nat) (wo loss host : String),
      1 ≤ (ADAG.init km wo loss host).communication_window ∧
      1 ≤ (ADAG.init km wo loss host).num_workers ∧
      1 ≤ (ADAG.init km wo loss host).parallelism_factor) ∧
    (∀ (a : AsynchronousDistributedTrainer) (f : Int),
      (a.set_parallelism_factor f).parallelism_factor = f) ∧
    (∀ (km : Nat) (wo loss host fc lc : String) (w bs ne cw : Int) (lr : Rat),
      (DOWNPOUR.init km wo loss host w bs fc lc ne lr cw).num_workers = w ∧
      (DOWNPOUR.init km wo loss host w bs fc lc ne lr cw).communication_window
        = cw) := by
  refine ⟨fun km wo loss host => ⟨?_, ?_, ?_⟩,
    fun km wo loss host => ⟨?_, ?_, ?_⟩,
    fun km wo loss host => ⟨?_, ?_, ?_⟩,
    fun a f => rfl,
    fun km wo loss host fc lc w bs ne cw lr => ⟨rfl, rfl⟩⟩ <;>
  simp [DOWNPOUR.init, EAMSGD.init, ADAG.init,
    AsynchronousDistributedTrainer.init, DistributedTrainer.init, Trainer.init]

/-- Claim C6: starting from a trainer with no recorded service thread whose
`num_epoch` is E ≥ 0, a successful `train()` run invokes the distributed-map
primitive exactly E times, once per epoch and in order, all of them strictly
between the `record_training_start()` and `record_training_end()` effects. -/
theorem C6_one_map_per_epoch (t : AsynchronousDistributedTrainer)
    (ths : Threads) (df : DataFrame) (allocPS : ParameterServer) (w : Worker)
    (mapRun : Nat → Except PyError Unit) (now1 now2 : Int) (E : Nat)
    (hE : t.num_epoch = (E : Int))
    (hth : t.parameter_server_thread = none)
    (hmap : ∀ j, j < E → mapRun j = .ok ()) :
    ∃ (act : RepartitionAction) (p : Nat),
      (t.train ths df false allocPS (.ok (some w)) mapRun now1 now2).1 =
        [Event.serviceStart, act.event, Event.trainingStartRecorded] ++
        (List.range E).map (fun i => Event.mapInvoked i p) ++
        [Event.trainingEndRecorded, Event.serviceStop] := by
  have hE' : t.num_epoch.toNat = E := by omega
  rw [asyncTrain_ok t ths df allocPS w mapRun now1 now2 hth
    (by rw [hE']; exact hmap)]
  exact ⟨repartitionPolicy df.numPartitions (t.parallelism_factor * t.num_workers),
    (df.applyAction (repartitionPolicy df.numPartitions
      (t.parallelism_factor * t.num_workers))).numPartitions,
    by simp [hE']⟩

/-- Claim C6 (witness): one map invocation for the single default epoch of a
concrete `DOWNPOUR` trainer. -/
theorem C6_one_map_per_epoch_witness :
    ∃ (act : RepartitionAction) (p : Nat),
      (AsynchronousDistributedTrainer.train
          downpourEx.toAsynchronousDistributedTrainer threads0 ⟨4⟩ false
          (DistributedTrainer.allocate_parameter_server
            downpourEx.toDistributedTrainer)
          (.ok downpourEx.allocate_worker) (fun _ => .ok ()) 3 9).1 =
        [Event.serviceStart, act.event, Event.trainingStartRecorded] ++
        (List.range 1).map (fun i => Event.mapInvoked i p) ++
        [Event.trainingEndRecorded, Event.serviceStop] :=
  C6_one_map_per_epoch downpourEx.toAsynchronousDistributedTrainer threads0 ⟨4⟩
    (DistributedTrainer.allocate_parameter_server downpourEx.toDistributedTrainer)
    (Worker.downpour 10 "adagrad" "categorical_crossentropy" "features"
      "label" 32 "127.0.0.1" 5000 (1 / 10) 5)
    (fun _ => .ok ()) 3 9 1 rfl rfl (fun _ _ => rfl)

/-- Claim C7: a successful `train()` run returns exactly the model read from
the parameter server via `get_model()`, in a state where `stop_service()`
has already cleared and joined the service thread — the thread registry is
empty again and the trace stops the service exactly once, so no later update
can change the returned model. -/
theorem C7_returns_final_server_model (t : AsynchronousDistributedTrainer)
    (ths : Threads) (df : DataFrame) (allocPS : ParameterServer) (w : Worker)
    (mapRun : Nat → Except PyError Unit) (now1 now2 : Int)
    (hth : t.parameter_server_thread = none)
    (hidle : ths.running = [])
    (hmap : ∀ j, j < t.num_epoch.toNat → mapRun j = .ok ()) :
    ∃ (trace : List Event) (m : Nat) (t' : AsynchronousDistributedTrainer)
      (ths' : Threads) (ps' : ParameterServer),
      t.train ths df false allocPS (.ok (some w)) mapRun now1 now2 =
        (trace, .ok (m, t', ths')) ∧
      t'.parameter_server = some ps' ∧
      m = ps'.get_model ∧
      t'.parameter_server_thread = none ∧
      ths'.running = [] ∧
      trace.count Event.serviceStop = 1 := by
  rw [asyncTrain_ok t ths df allocPS w mapRun now1 now2 hth hmap]
  refine ⟨_, _, _, _, allocPS.stop, rfl, rfl, rfl, rfl, ?_, ?_⟩
  · simp [hidle]
  · have hact := RepartitionAction.event_ne_serviceStop
      (repartitionPolicy df.numPartitions (t.parallelism_factor * t.num_workers))
    simp [List.count_cons, List.count_append, count_serviceStop_mapEvents,
      Ne.symm hact]

/-- Claim C7 (witness): a concrete successful run of a default `DOWNPOUR`
trainer returning the server's model after the service was stopped. -/
theorem C7_returns_final_server_model_witness :
    ∃ (trace : List Event) (m : Nat) (t' : AsynchronousDistributedTrainer)
      (ths' : Threads) (ps' : ParameterServer),
      AsynchronousDistributedTrainer.train
          downpourEx.toAsynchronousDistributedTrainer threads0 ⟨4⟩ false
          (DistributedTrainer.allocate_parameter_server
            downpourEx.toDistributedTrainer)
          (.ok downpourEx.allocate_worker) (fun _ => .ok ()) 3 9 =
        (trace, .ok (m, t', ths')) ∧
      t'.parameter_server = some ps' ∧
      m = ps'.get_model ∧
      t'.parameter_server_thread = none ∧
      ths'.running = [] ∧
      trace.count Event.serviceStop = 1 :=
  C7_returns_final_server_model downpourEx.toAsynchronousDistributedTrainer
    threads0 ⟨4⟩
    (DistributedTrainer.allocate_parameter_server downpourEx.toDistributedTrainer)
    (Worker.downpour 10 "adagrad" "categorical_crossentropy" "features"
      "label" 32 "127.0.0.1" 5000 (1 / 10) 5)
    (fun _ => .ok ()) 3 9 rfl rfl (fun _ _ => rfl)

/-- Claim C8: `add_history(h)` appends `h` at the end of the recorded
history — the previous entries are unchanged and keep their order, the
length grows by one with `h` last, every other trainer field is unchanged,
and afterwards `has_history()` is true while `get_history()` returns the
full appended sequence. -/
theorem C8_add_history_appends (t : Trainer) (h : Nat) :
    (t.add_history h).history = t.history ++ [h] ∧
    (t.add_history h).history.length = t.history.length + 1 ∧
    (t.add_history h).get_history = t.history ++ [h] ∧
    (t.add_history h).has_history = true ∧
    (t.add_history h).master_model = t.master_model ∧
    (t.add_history h).loss = t.loss ∧
    (t.add_history h).worker_optimizer = t.worker_optimizer ∧
    (t.add_history h).training_time_start = t.training_time_start ∧
    (t.add_history h).training_time_end = t.training_time_end ∧
    (t.add_history h).training_time = t.training_time := by
  simp [Trainer.add_history, Trainer.get_history, Trainer.has_history]

/-- Claim C9: on every trainer class, `train(dataframe, shuffle=True)` takes
the `if shuffle:` branch and immediately calls the boolean
(`dataframe = shuffle(dataframe)`), raising a `TypeError` before any epoch
runs; in the two distributed variants this happens after `start_service()`
already spawned the parameter-server thread (the distributed statements hold
for any dispatched `allocate_worker()` result that returns, i.e. for every
concrete subclass). -/
theorem C9_shuffle_true_raises :
    (∀ (t : SingleTrainer) (df : DataFrame)
        (mapRun : Nat → Worker → Except PyError Nat) (now1 now2 : Int),
      t.train df true mapRun now1 now2 =
        ([], .error .typeErrorBoolNotCallable)) ∧
    (∀ (t : EnsembleTrainer) (df : DataFrame)
        (mapRun : Worker → Except PyError (List Nat)) (now1 now2 : Int),
      t.train df true mapRun now1 now2 =
        ([], .error .typeErrorBoolNotCallable)) ∧
    (∀ (t : DistributedTrainer) (ths : Threads) (df : DataFrame)
        (allocPS : ParameterServer) (worker : Option Worker)
        (mapRun : Nat → Except PyError Unit) (now1 now2 : Int),
      t.train ths df true allocPS (.ok worker) mapRun now1 now2 =
        ([Event.serviceStart], .error .typeErrorBoolNotCallable)) ∧
    (∀ (t : AsynchronousDistributedTrainer) (ths : Threads) (df : DataFrame)
        (allocPS : ParameterServer) (worker : Option Worker)
        (mapRun : Nat → Except PyError Unit) (now1 now2 : Int),
      t.train ths df true allocPS (.ok worker) mapRun now1 now2 =
        ([Event.serviceStart], .error .typeErrorBoolNotCallable)) := by
  refine ⟨fun t df mapRun now1 now2 => by simp [SingleTrainer.train],
    fun t df mapRun now1 now2 => by
      simp [EnsembleTrainer.train, EnsembleTrainer.allocate_worker],
    fun t ths df allocPS worker mapRun now1 now2 => ?_,
    fun t ths df allocPS worker mapRun now1 now2 => ?_⟩
  · rcases hth : t.parameter_server_thread with _ | tid <;>
      simp [DistributedTrainer.train, DistributedTrainer.start_service,
        DistributedTrainer.stop_service, Threads.spawn, Threads.join, hth]
  · rcases hth : t.parameter_server_thread with _ | tid <;>
      simp [AsynchronousDistributedTrainer.train,
        DistributedTrainer.start_service, DistributedTrainer.stop_service,
        Threads.spawn, Threads.join, hth]

/-- Claim C10: `stop_service()` always raises an `AttributeError` when no
service thread is recorded (whether or not a parameter server exists, one of
the two `None` attribute accesses fires), and `num_updates()` raises when no
parameter server has been allocated — neither is a silent no-op. -/
theorem C10_idle_lifecycle_raises (t : DistributedTrainer) (ths : Threads) :
    (t.parameter_server_thread = none →
      t.stop_service ths = .error .attributeErrorNone) ∧
    (t.parameter_server = none →
      t.num_updates = .error .attributeErrorNone) := by
  constructor
  · intro hth
    rcases hps : t.parameter_server with _ | ps <;>
      simp [DistributedTrainer.stop_service, hps, hth]
  · intro hps
    simp [DistributedTrainer.num_updates, hps]

/-- Claim C10 (witness): both failures on a freshly constructed distributed
trainer in its idle state. -/
theorem C10_idle_lifecycle_raises_witness :
    idleEx.stop_service threads0 = .error .attributeErrorNone ∧
    idleEx.num_updates = .error .attributeErrorNone :=
  ⟨(C10_idle_lifecycle_raises idleEx threads0).1 rfl,
    (C10_idle_lifecycle_raises idleEx threads0).2 rfl⟩

end DistKeras
